import Mathlib

/-!
Verification of the mcp-atlassian gateway core against its specification.

The development shallowly embeds the Rust source:
 - `src/tools/response_optimizer.rs` (JSON response shrinking),
 - `src/tools/jira/field_filtering.rs` (search-field resolution),
 - `src/mcp/types.rs` (JSON-RPC envelopes, error codes, protocol constants),
 - `src/mcp/handlers.rs` (tool registry and dispatch),
 - `src/mcp/server.rs` (protocol router and session state machine).

JSON values (`serde_json::Value`) are modelled by the inductive `Json`;
`serde_json::Map` (a map with unique string keys, mutated by `remove` and
`retain`) is modelled as an ordered association list, whose `remove` is a
filter on keys.  Numbers are modelled as `Int`: no claim depends on
numeric representation.  Stateful handlers become explicit state passing;
`anyhow::Result` becomes `Except String`.  The tool handlers themselves
(outbound HTTP, out of the specified core) are abstract `execute`
functions supplied as parameters.
-/

/-- Model of `serde_json::Value`.  Objects are ordered association lists
(`serde_json` maps have unique string keys; uniqueness is not needed by
any proof, so it is not imposed). -/
inductive Json where
  | null : Json
  | bool (b : Bool) : Json
  | num (n : Int) : Json
  | str (s : String) : Json
  | arr (elems : List Json) : Json
  | obj (entries : List (String × Json)) : Json
deriving Repr

/-- Key lookup in a JSON object, as `serde_json::Map::get`. -/
def lookupField : List (String × Json) → String → Option Json
  | [], _ => none
  | (k, v) :: rest, key => if k == key then some v else lookupField rest key

/- ----------------------------------------------------------------
Response optimizer, from `src/tools/response_optimizer.rs`.
---------------------------------------------------------------- -/

/-- The 27 default exclude fields (`DEFAULT_EXCLUDE_FIELDS`,
response_optimizer.rs lines 33-63). -/
def DEFAULT_EXCLUDE_FIELDS : List String :=
  ["avatarUrls", "iconUrl", "profilePicture", "icon", "self",
   "expand", "avatarId", "accountType", "projectTypeKey", "simplified",
   "_expandable", "childTypes", "macroRenderedOutput", "restrictions",
   "breadcrumbs", "entityType", "iconCssClass", "colorName", "hasScreen",
   "isAvailable", "isConditional", "isGlobal", "isInitial", "isLooped",
   "friendlyLastModified", "editui", "edituiv2"]

/-- Source `ResponseOptimizer` state (response_optimizer.rs lines 80-85); the
test-only `stats` field is omitted. -/
structure ResponseOptimizer where
  exclude_fields : List String
  remove_empty_strings : Bool

/-- The guard of `map.retain(|_, v| !matches!(v, Value::String(s) if s.is_empty()))`
(response_optimizer.rs line 178). -/
def isEmptyString : Json → Bool
  | .str s => s.isEmpty
  | _ => false

mutual

/-- Source `ResponseOptimizer::optimize_recursive` (response_optimizer.rs lines
168-196), as a pure function: at an object node remove entries whose key is
in `exclude_fields`, then (when `remove_empty_strings`) entries whose value
is the empty string, then recurse into the surviving values; at an array
node recurse into every element; primitives are left alone.  The source's
three passes over the map (remove loop, `retain`, `values_mut` loop) are
fused into one pass over the association list here; the lemma
`optimizeEntries_eq_filter_filter_map` below recovers the source's
three-pass shape literally. -/
def ResponseOptimizer.optimize_recursive (o : ResponseOptimizer) : Json → Json
  | .null => .null
  | .bool b => .bool b
  | .num n => .num n
  | .str s => .str s
  | .arr elems => .arr (ResponseOptimizer.optimizeElems o elems)
  | .obj entries => .obj (ResponseOptimizer.optimizeEntries o entries)

/-- Recursion of `optimize_recursive` over array elements (the
`for item in arr.iter_mut()` loop). -/
def ResponseOptimizer.optimizeElems (o : ResponseOptimizer) : List Json → List Json
  | [] => []
  | x :: xs => ResponseOptimizer.optimize_recursive o x :: ResponseOptimizer.optimizeElems o xs

/-- Recursion of `optimize_recursive` over object entries: drop excluded
keys (step 1), drop empty-string values when the flag is set (step 2),
recurse into kept values (step 3). -/
def ResponseOptimizer.optimizeEntries (o : ResponseOptimizer) : List (String × Json) → List (String × Json)
  | [] => []
  | (k, v) :: rest =>
    if o.exclude_fields.contains k then
      ResponseOptimizer.optimizeEntries o rest
    else if o.remove_empty_strings && isEmptyString v then
      ResponseOptimizer.optimizeEntries o rest
    else
      (k, ResponseOptimizer.optimize_recursive o v) :: ResponseOptimizer.optimizeEntries o rest

end

/-- Source `ResponseOptimizer::optimize` (response_optimizer.rs lines 138-162):
runs `optimize_recursive` on the value (in place in the source, returning
the new value here) and returns `Ok(())`; the body has no error path. -/
def ResponseOptimizer.optimize (o : ResponseOptimizer) (value : Json) : Json × Except String Unit :=
  (o.optimize_recursive value, Except.ok ())

/-- One-pass fusion equals the source's three passes: remove excluded
keys, retain non-empty-string values, then map the recursive call over
the survivors. -/
theorem optimizeEntries_eq_filter_filter_map (o : ResponseOptimizer) (kvs : List (String × Json)) :
    ResponseOptimizer.optimizeEntries o kvs =
      ((kvs.filter (fun kv => !(o.exclude_fields.contains kv.1))).filter
          (fun kv => !(o.remove_empty_strings && isEmptyString kv.2))).map
        (fun kv => (kv.1, o.optimize_recursive kv.2)) := by
  induction kvs with
  | nil => rfl
  | cons kv rest ih =>
    obtain ⟨k, v⟩ := kv
    by_cases hk : k ∈ o.exclude_fields
    · simp [ResponseOptimizer.optimizeEntries, hk, List.filter_cons, ih]
    · by_cases he : o.remove_empty_strings = true ∧ isEmptyString v = true
      · simp [ResponseOptimizer.optimizeEntries, hk, he.1, he.2, List.filter_cons, ih]
      · have he' : (o.remove_empty_strings && isEmptyString v) = false := by
          cases h1 : o.remove_empty_strings <;> cases h2 : isEmptyString v <;> simp_all
        have hcond : o.remove_empty_strings = false ∨ isEmptyString v = false := by
          cases h1 : o.remove_empty_strings <;> cases h2 : isEmptyString v <;> simp_all
        simp [ResponseOptimizer.optimizeEntries, hk, he', List.filter_cons, ih]
        rw [if_pos hcond]
        simp

/-- Optimizing array elements is mapping the optimizer over them: arrays
keep all their elements, in order. -/
theorem optimizeElems_eq_map (o : ResponseOptimizer) (xs : List Json) :
    ResponseOptimizer.optimizeElems o xs = xs.map (o.optimize_recursive) := by
  induction xs with
  | nil => rfl
  | cons x xs ih => simp [ResponseOptimizer.optimizeElems, ih]

mutual

/-- Property checker: a JSON value contains, at any depth, no object key
from `o.exclude_fields` and no object member whose value is the empty
string. -/
def cleanJson (o : ResponseOptimizer) : Json → Bool
  | .null => true
  | .bool _ => true
  | .num _ => true
  | .str _ => true
  | .arr elems => cleanElems o elems
  | .obj entries => cleanEntries o entries

/-- Checker `cleanJson` over array elements. -/
def cleanElems (o : ResponseOptimizer) : List Json → Bool
  | [] => true
  | x :: xs => cleanJson o x && cleanElems o xs

/-- Checker `cleanJson` over object entries. -/
def cleanEntries (o : ResponseOptimizer) : List (String × Json) → Bool
  | [] => true
  | (k, v) :: rest =>
    !(o.exclude_fields.contains k) && !(isEmptyString v) && cleanJson o v && cleanEntries o rest

end

/-- The optimizer maps each JSON constructor to the same constructor, so
it cannot create or destroy empty strings. -/
theorem isEmptyString_optimize (o : ResponseOptimizer) (v : Json) :
    isEmptyString (o.optimize_recursive v) = isEmptyString v := by
  cases v <;> rfl

mutual

/-- When empty-string removal is on, the output of `optimize_recursive`
is clean: no excluded key and no empty-string member survives at any
depth. -/
theorem optimize_recursive_clean (o : ResponseOptimizer) (hre : o.remove_empty_strings = true) :
    ∀ v : Json, cleanJson o (o.optimize_recursive v) = true
  | .null => rfl
  | .bool _ => rfl
  | .num _ => rfl
  | .str _ => rfl
  | .arr elems => by
    simpa [ResponseOptimizer.optimize_recursive, cleanJson] using
      optimizeElems_clean o hre elems
  | .obj entries => by
    simpa [ResponseOptimizer.optimize_recursive, cleanJson] using
      optimizeEntries_clean o hre entries

/-- Array part of `optimize_recursive_clean`. -/
theorem optimizeElems_clean (o : ResponseOptimizer) (hre : o.remove_empty_strings = true) :
    ∀ xs : List Json, cleanElems o (o.optimizeElems xs) = true
  | [] => rfl
  | x :: xs => by
    simp [ResponseOptimizer.optimizeElems, cleanElems,
      optimize_recursive_clean o hre x, optimizeElems_clean o hre xs]

/-- Object part of `optimize_recursive_clean`. -/
theorem optimizeEntries_clean (o : ResponseOptimizer) (hre : o.remove_empty_strings = true) :
    ∀ kvs : List (String × Json), cleanEntries o (o.optimizeEntries kvs) = true
  | [] => rfl
  | (k, v) :: rest => by
    by_cases hk : k ∈ o.exclude_fields
    · simp [ResponseOptimizer.optimizeEntries, hk, optimizeEntries_clean o hre rest]
    · by_cases he : isEmptyString v = true
      · simp [ResponseOptimizer.optimizeEntries, hk, he, hre,
          optimizeEntries_clean o hre rest]
      · simp [ResponseOptimizer.optimizeEntries, hk, he, hre, cleanEntries,
          isEmptyString_optimize, optimize_recursive_clean o hre v,
          optimizeEntries_clean o hre rest]

end

/-- Entries whose key is not excluded and whose value survives the
empty-string filter are kept (with the recursively optimized value):
nothing else is ever removed from an object node. -/
theorem optimizeEntries_mem (o : ResponseOptimizer) (kvs : List (String × Json))
    (k : String) (v : Json) (hmem : (k, v) ∈ kvs)
    (hk : k ∉ o.exclude_fields)
    (hv : ¬(o.remove_empty_strings = true ∧ isEmptyString v = true)) :
    (k, o.optimize_recursive v) ∈ o.optimizeEntries kvs := by
  induction kvs with
  | nil => cases hmem
  | cons kv rest ih =>
    obtain ⟨k', v'⟩ := kv
    rcases List.mem_cons.mp hmem with hhead | htail
    · rw [Prod.mk.injEq] at hhead
      obtain ⟨h1, h2⟩ := hhead
      subst h1
      subst h2
      simp [ResponseOptimizer.optimizeEntries, hk, hv]
    · by_cases h1 : k' ∈ o.exclude_fields
      · simpa [ResponseOptimizer.optimizeEntries, h1] using ih htail
      · by_cases h2 : o.remove_empty_strings = true ∧ isEmptyString v' = true
        · simpa [ResponseOptimizer.optimizeEntries, h1, h2] using ih htail
        · simp only [ResponseOptimizer.optimizeEntries]
          rw [if_neg (by simp [h1]), if_neg (by simpa using h2)]
          exact List.mem_cons_of_mem _ (ih htail)

mutual

/-- Idempotence of `optimize_recursive` (value level). -/
theorem optimize_recursive_idem (o : ResponseOptimizer) :
    ∀ v : Json, o.optimize_recursive (o.optimize_recursive v) = o.optimize_recursive v
  | .null => rfl
  | .bool _ => rfl
  | .num _ => rfl
  | .str _ => rfl
  | .arr elems => by
    simp [ResponseOptimizer.optimize_recursive, optimizeElems_idem o elems]
  | .obj entries => by
    simp [ResponseOptimizer.optimize_recursive, optimizeEntries_idem o entries]

/-- Idempotence of `optimize_recursive` (array elements). -/
theorem optimizeElems_idem (o : ResponseOptimizer) :
    ∀ xs : List Json, o.optimizeElems (o.optimizeElems xs) = o.optimizeElems xs
  | [] => rfl
  | x :: xs => by
    simp [ResponseOptimizer.optimizeElems, optimize_recursive_idem o x,
      optimizeElems_idem o xs]

/-- Idempotence of `optimize_recursive` (object entries). -/
theorem optimizeEntries_idem (o : ResponseOptimizer) :
    ∀ kvs : List (String × Json), o.optimizeEntries (o.optimizeEntries kvs) = o.optimizeEntries kvs
  | [] => rfl
  | (k, v) :: rest => by
    by_cases hk : k ∈ o.exclude_fields
    · simp [ResponseOptimizer.optimizeEntries, hk, optimizeEntries_idem o rest]
    · by_cases he : o.remove_empty_strings = true ∧ isEmptyString v = true
      · simp [ResponseOptimizer.optimizeEntries, hk, he, optimizeEntries_idem o rest]
      · simp [ResponseOptimizer.optimizeEntries, hk, he, isEmptyString_optimize,
          optimize_recursive_idem o v, optimizeEntries_idem o rest]

end

/- ----------------------------------------------------------------
Field resolver, from `src/tools/jira/field_filtering.rs`, and the
configuration it reads, from `src/config/mod.rs`.
---------------------------------------------------------------- -/

/-- Application configuration (config/mod.rs lines 6-23), restricted to
the fields read by the embedded core.  `response_exclude_fields` is the
configuration slot read by `ResponseOptimizer::from_config`
(`RESPONSE_EXCLUDE_FIELDS`); credentials, connection limits and filters
are not read by any embedded function and are omitted. -/
structure Config where
  jira_search_default_fields : Option (List String)
  jira_search_custom_fields : List String
  response_exclude_fields : Option (List String)

/-- Source `ResponseOptimizer::from_config` (response_optimizer.rs lines
91-115): exclude fields from configuration when present, otherwise
`DEFAULT_EXCLUDE_FIELDS`; empty-string removal is always on. -/
def ResponseOptimizer.from_config (config : Config) : ResponseOptimizer :=
  match config.response_exclude_fields with
  | some fields => ⟨fields, true⟩
  | none => ⟨DEFAULT_EXCLUDE_FIELDS, true⟩

/-- The 17 built-in default search fields (`DEFAULT_SEARCH_FIELDS`,
field_filtering.rs lines 3-27). -/
def DEFAULT_SEARCH_FIELDS : List String :=
  ["key",
   "summary", "status", "priority", "issuetype",
   "assignee", "reporter", "creator",
   "created", "updated", "duedate", "resolutiondate",
   "project", "labels", "components",
   "parent", "subtasks"]

/-- Priorities 2-4 of `resolve_search_fields` (field_filtering.rs lines
46-72): the code after the priority-1 early return. -/
def resolve_from_config (config : Config) : List String :=
  match config.jira_search_default_fields with
  | some env_defaults => env_defaults
  | none =>
    let fields := DEFAULT_SEARCH_FIELDS
    if !config.jira_search_custom_fields.isEmpty then
      fields ++ config.jira_search_custom_fields
    else
      fields

/-- Source `resolve_search_fields` (field_filtering.rs lines 34-72): a
non-empty caller-supplied list is returned as is (priority 1); otherwise
resolution falls through to the configuration (priorities 2-4, split
into `resolve_from_config` to mirror the early-return structure). -/
def resolve_search_fields (api_fields : Option (List String)) (config : Config) : List String :=
  match api_fields with
  | some fields =>
    if !fields.isEmpty then fields else resolve_from_config config
  | none => resolve_from_config config

/-- C5: field resolution is strictly first-match.  A non-empty
caller-supplied list is returned exactly, ignoring the configuration; a
configured default-field override list is returned exactly, with no
custom fields appended; an empty caller-supplied list is treated as not
supplied. -/
theorem resolve_search_fields_first_match (config : Config) :
    (∀ fields : List String, fields ≠ [] →
        resolve_search_fields (some fields) config = fields) ∧
    (∀ d : List String, config.jira_search_default_fields = some d →
        resolve_search_fields none config = d) ∧
    resolve_search_fields (some []) config = resolve_search_fields none config := by
  refine ⟨?_, ?_, ?_⟩
  · intro fields hne
    simp [resolve_search_fields, hne]
  · intro d hd
    simp [resolve_search_fields, resolve_from_config, hd]
  · simp [resolve_search_fields]

/-- Witness for `resolve_search_fields_first_match` at the
configurations of the specification's examples. -/
theorem resolve_search_fields_first_match_witness :
    resolve_search_fields (some ["key", "summary"])
      ⟨some ["key"], ["customfield_10015"], none⟩ = ["key", "summary"] ∧
    resolve_search_fields none
      ⟨some ["key", "summary", "status"], ["customfield_10015"], none⟩ =
      ["key", "summary", "status"] := by
  have h1 := resolve_search_fields_first_match ⟨some ["key"], ["customfield_10015"], none⟩
  have h2 := resolve_search_fields_first_match
    ⟨some ["key", "summary", "status"], ["customfield_10015"], none⟩
  exact ⟨h1.1 _ (List.cons_ne_nil _ _), h2.2.1 _ rfl⟩

/-- Counterexample to C6 as stated: with custom field list `["key"]`
("key" is also a built-in default), the resolved list contains "key"
twice, not exactly once — the code appends custom fields without
de-duplication. -/
theorem resolve_search_fields_no_dedup_cex :
    (resolve_search_fields none ⟨none, ["key"], none⟩).count "key" ≠ 1 := by
  decide

/-- C6 amended: with no caller-supplied fields and no override list, the
result is the built-in default list with the configured custom fields
appended verbatim, in order and without de-duplication; each name occurs
as many times as in the two lists combined. -/
theorem resolve_search_fields_appends_custom (custom : List String)
    (excl : Option (List String)) :
    resolve_search_fields none ⟨none, custom, excl⟩ = DEFAULT_SEARCH_FIELDS ++ custom ∧
    ∀ f : String, (resolve_search_fields none ⟨none, custom, excl⟩).count f =
      DEFAULT_SEARCH_FIELDS.count f + custom.count f := by
  have h : resolve_search_fields none ⟨none, custom, excl⟩ = DEFAULT_SEARCH_FIELDS ++ custom := by
    cases custom with
    | nil => simp [resolve_search_fields, resolve_from_config]
    | cons c cs => simp [resolve_search_fields, resolve_from_config]
  exact ⟨h, fun f => by simp [h, List.count_append]⟩

/-- C3: the optimizer's output contains, at any depth, no excluded key
and no object member whose value is the empty string; at each object
node, null-valued members with non-excluded keys are preserved and
members whose key is not excluded and whose value is not the empty
string are never removed (their value is recursively optimized); arrays
keep all their elements, in order. -/
theorem response_optimizer_output_clean (o : ResponseOptimizer) (v : Json)
    (hre : o.remove_empty_strings = true) :
    cleanJson o (o.optimize_recursive v) = true ∧
    (∀ entries k, v = Json.obj entries → (k, Json.null) ∈ entries →
        k ∉ o.exclude_fields →
        (k, Json.null) ∈ o.optimizeEntries entries) ∧
    (∀ entries k w, v = Json.obj entries → (k, w) ∈ entries →
        k ∉ o.exclude_fields → isEmptyString w = false →
        (k, o.optimize_recursive w) ∈ o.optimizeEntries entries) ∧
    (∀ elems, v = Json.arr elems →
        o.optimize_recursive v = Json.arr (elems.map o.optimize_recursive)) := by
  refine ⟨optimize_recursive_clean o hre v, ?_, ?_, ?_⟩
  · intro entries k hv hmem hk
    have h := optimizeEntries_mem o entries k Json.null hmem hk (by simp [isEmptyString])
    simpa [ResponseOptimizer.optimize_recursive] using h
  · intro entries k w hv hmem hk hw
    exact optimizeEntries_mem o entries k w hmem hk (by simp [hw])
  · intro elems hv
    subst hv
    simp [ResponseOptimizer.optimize_recursive, optimizeElems_eq_map]

/-- Witness for `response_optimizer_output_clean` at a concrete input:
excluded key "self" and the empty-string member are gone, the null
member survives. -/
theorem response_optimizer_output_clean_witness :
    cleanJson ⟨["self"], true⟩
      (ResponseOptimizer.optimize_recursive ⟨["self"], true⟩
        (Json.obj [("self", Json.str "x"), ("a", Json.null), ("b", Json.str "")])) = true ∧
    ("a", Json.null) ∈
      ResponseOptimizer.optimizeEntries ⟨["self"], true⟩
        [("self", Json.str "x"), ("a", Json.null), ("b", Json.str "")] := by
  have h := response_optimizer_output_clean ⟨["self"], true⟩
      (Json.obj [("self", Json.str "x"), ("a", Json.null), ("b", Json.str "")]) rfl
  exact ⟨h.1, h.2.1 _ "a" rfl (by simp) (by simp)⟩

/-- C4: the Response Optimizer is idempotent — optimizing the value an
`optimize` call produced yields the same value (and the same `Ok`
status). -/
theorem response_optimizer_idempotent (o : ResponseOptimizer) (v : Json) :
    o.optimize (o.optimize v).1 = o.optimize v := by
  simp [ResponseOptimizer.optimize, optimize_recursive_idem]

/- ----------------------------------------------------------------
JSON-RPC types, from `src/mcp/types.rs`.
---------------------------------------------------------------- -/

/-- Older MCP protocol version (`PROTOCOL_VERSION`, types.rs line 6). -/
def PROTOCOL_VERSION : String := "2024-11-05"

/-- Newer MCP protocol version (`PROTOCOL_VERSION_2025`, types.rs line 7). -/
def PROTOCOL_VERSION_2025 : String := "2025-06-18"

/-- Source `JsonRpcRequest` (types.rs lines 11-16). -/
structure JsonRpcRequest where
  jsonrpc : String
  method : String
  params : Option Json
  id : Option Json

/-- Source `JsonRpcError` (types.rs lines 31-36). -/
structure JsonRpcError where
  code : Int
  message : String
  data : Option Json

/-- Source `JsonRpcResponse` (types.rs lines 20-27). -/
structure JsonRpcResponse where
  jsonrpc : String
  result : Option Json
  error : Option JsonRpcError
  id : Option Json

/-- Source `error_codes::PARSE_ERROR` (types.rs line 150). -/
def error_codes.PARSE_ERROR : Int := -32700

/-- Source `error_codes::INVALID_REQUEST` (types.rs line 151). -/
def error_codes.INVALID_REQUEST : Int := -32600

/-- Source `error_codes::METHOD_NOT_FOUND` (types.rs line 152). -/
def error_codes.METHOD_NOT_FOUND : Int := -32601

/-- Source `error_codes::INVALID_PARAMS` (types.rs line 153). -/
def error_codes.INVALID_PARAMS : Int := -32602

/-- Source `error_codes::INTERNAL_ERROR` (types.rs line 154). -/
def error_codes.INTERNAL_ERROR : Int := -32603

/-- Source `JsonRpcError::parse_error` (types.rs lines 158-164). -/
def JsonRpcError.parse_error : JsonRpcError :=
  ⟨error_codes.PARSE_ERROR, "Parse error", none⟩

/-- Source `JsonRpcError::invalid_request` (types.rs lines 166-172). -/
def JsonRpcError.invalid_request : JsonRpcError :=
  ⟨error_codes.INVALID_REQUEST, "Invalid request", none⟩

/-- Source `JsonRpcError::method_not_found` (types.rs lines 174-180). -/
def JsonRpcError.method_not_found (method : String) : JsonRpcError :=
  ⟨error_codes.METHOD_NOT_FOUND, "Method not found: " ++ method, none⟩

/-- Source `JsonRpcError::invalid_params` (types.rs lines 182-188). -/
def JsonRpcError.invalid_params (message : String) : JsonRpcError :=
  ⟨error_codes.INVALID_PARAMS, message, none⟩

/-- Source `JsonRpcError::internal_error` (types.rs lines 190-196). -/
def JsonRpcError.internal_error (message : String) : JsonRpcError :=
  ⟨error_codes.INTERNAL_ERROR, message, none⟩

/-- Source `JsonRpcResponse::success` (types.rs lines 200-207). -/
def JsonRpcResponse.mkSuccess (id : Option Json) (result : Json) : JsonRpcResponse :=
  ⟨"2.0", some result, none, id⟩

/-- Source `JsonRpcResponse::error` (types.rs lines 209-216); called `mkError`
here because `error` is already the field's name. -/
def JsonRpcResponse.mkError (id : Option Json) (e : JsonRpcError) : JsonRpcResponse :=
  ⟨"2.0", none, some e, id⟩

/-- Source `CallToolRequest` (types.rs lines 127-130). -/
structure CallToolRequest where
  name : String
  arguments : Json

/-- Model of `serde_json::from_value::<CallToolRequest>`: the params
must be a JSON object with a string `name` member and an `arguments`
member of any JSON type (the field has type `Value`); unknown members
are ignored; a missing field or a non-string `name` fails. -/
def parseCallToolRequest (j : Json) : Option CallToolRequest :=
  match j with
  | .obj kvs =>
    match lookupField kvs "name", lookupField kvs "arguments" with
    | some (.str n), some a => some ⟨n, a⟩
    | _, _ => none
  | _ => none

/-- Source `InitializeRequest` (types.rs lines 40-46), reduced to the one field
the server reads; the presence checks for the other two required fields
live in `parseInitializeRequest`. -/
structure InitializeRequest where
  protocol_version : String

/-- Model of deserializing `ClientInfo` (types.rs lines 57-60): an
object with string `name` and `version` members. -/
def isClientInfoJson (j : Json) : Bool :=
  match j with
  | .obj kvs =>
    (match lookupField kvs "name" with | some (.str _) => true | _ => false) &&
    (match lookupField kvs "version" with | some (.str _) => true | _ => false)
  | _ => false

/-- Model of deserializing `ClientCapabilities` (types.rs lines 50-53):
an object; `experimental` is defaulted but must be an object when
present. -/
def isClientCapabilitiesJson (j : Json) : Bool :=
  match j with
  | .obj kvs =>
    match lookupField kvs "experimental" with
    | none => true
    | some (.obj _) => true
    | some _ => false
  | _ => false

/-- Model of `serde_json::from_value::<InitializeRequest>` (used at
server.rs line 153): requires `protocol_version` (serde alias
`protocolVersion`), `capabilities`, and `client_info` (alias
`clientInfo`). -/
def parseInitializeRequest (j : Json) : Option InitializeRequest :=
  match j with
  | .obj kvs =>
    match (lookupField kvs "protocol_version").orElse (fun _ => lookupField kvs "protocolVersion"),
          lookupField kvs "capabilities",
          (lookupField kvs "client_info").orElse (fun _ => lookupField kvs "clientInfo") with
    | some (.str v), some caps, some ci =>
      if isClientCapabilitiesJson caps && isClientInfoJson ci then some ⟨v⟩ else none
    | _, _, _ => none
  | _ => none

/- ----------------------------------------------------------------
Tool registry and dispatcher, from `src/mcp/handlers.rs`.
---------------------------------------------------------------- -/

/-- A registered tool's `execute` method (the `ToolHandler` trait
object): an outbound Backend Operation, outside the specified core,
abstracted as a function from arguments and configuration to a JSON
result or an error message. -/
structure ToolHandler where
  execute : Json → Config → Except String Json

/-- Source `RequestHandler` (handlers.rs lines 13-17): the name→handler
registry, the shared response optimizer, and (abstracted) the JSON array
that `list_tools` serializes to.  `RequestHandler::new` fills `tools`
with 14 fixed names; the claims quantify over arbitrary registries, so
the names are not baked in here.  The per-tool schema table
(`tool_to_mcp_tool`) is not touched by any claim and is abstracted as
the `toolsListing` value. -/
structure RequestHandler where
  tools : List (String × ToolHandler)
  optimizer : ResponseOptimizer
  toolsListing : Json

/-- Source `HashMap::get` on the registry. -/
def lookupTool : List (String × ToolHandler) → String → Option ToolHandler
  | [], _ => none
  | (k, t) :: rest, name => if k == name then some t else lookupTool rest name

/-- The read-operation allow-list (`is_get_operation`, handlers.rs lines
115-124). -/
def is_get_operation (name : String) : Bool :=
  name == "jira_get_issue" || name == "jira_search" || name == "jira_get_transitions" ||
  name == "confluence_search" || name == "confluence_get_page" ||
  name == "confluence_get_page_children" || name == "confluence_get_comments"

/-- Source `ToolContent` (types.rs lines 141-146). -/
inductive ToolContent where
  | text (t : String) : ToolContent
  | image (data : String) (mime_type : String) : ToolContent

/-- Source `CallToolResult` (types.rs lines 134-136). -/
structure CallToolResult where
  content : List ToolContent

mutual

/-- Model of `serde_json::to_string_pretty` on the result value
(handlers.rs line 148): a total serializer.  For `serde_json::Value`
serialization cannot fail, which is all any claim uses; the exact
whitespace and escaping of the pretty printer are not reproduced. -/
def renderJson : Json → String
  | .null => "null"
  | .bool b => if b then "true" else "false"
  | .num n => toString n
  | .str s => "\"" ++ s ++ "\""
  | .arr elems => "[" ++ renderElems elems ++ "]"
  | .obj entries => "\x7b" ++ renderEntries entries ++ "\x7d"

/-- Serializer `renderJson` over array elements, comma-separated. -/
def renderElems : List Json → String
  | [] => ""
  | [x] => renderJson x
  | x :: xs => renderJson x ++ "," ++ renderElems xs

/-- Serializer `renderJson` over object entries, comma-separated. -/
def renderEntries : List (String × Json) → String
  | [] => ""
  | [(k, v)] => "\"" ++ k ++ "\":" ++ renderJson v
  | (k, v) :: rest => "\"" ++ k ++ "\":" ++ renderJson v ++ "," ++ renderEntries rest

end

/-- The dispatcher's optimization step (handlers.rs lines 126-139): on
`Ok` the (in-place) optimized value is used; the `Err` arm logs a
warning and keeps the unoptimized result. -/
def dispatchOptimize (o : ResponseOptimizer) (result : Json) : Json :=
  match o.optimize result with
  | (optimized, .ok _) => optimized
  | (_, .error _) => result

/-- Content building (handlers.rs lines 142-150): a string result is
carried as plain text (`result.as_str()`), anything else is
serialized. -/
def toContent (result : Json) : List ToolContent :=
  match result with
  | .str text => [ToolContent.text text]
  | _ => [ToolContent.text (renderJson result)]

/-- Source `RequestHandler::call_tool` (handlers.rs lines 100-153): registry
lookup (failing with "Tool not found: {name}" before any handler runs),
handler execution, best-effort optimization for read operations, and
content wrapping. -/
def RequestHandler.call_tool (h : RequestHandler) (name : String) (arguments : Json)
    (config : Config) : Except String CallToolResult :=
  match lookupTool h.tools name with
  | none => .error ("Tool not found: " ++ name)
  | some tool =>
    match tool.execute arguments config with
    | .error e => .error e
    | .ok result =>
      let final := if is_get_operation name then dispatchOptimize h.optimizer result else result
      .ok ⟨toContent final⟩

/-- Serialization of `ToolContent` (types.rs lines 139-146, tagged
representation). -/
def toolContentJson : ToolContent → Json
  | .text t => .obj [("type", .str "text"), ("text", .str t)]
  | .image d m => .obj [("type", .str "image"), ("data", .str d), ("mime_type", .str m)]

/-- Serialization of `CallToolResult` (`serde_json::to_value` at
server.rs line 255, which cannot fail for this type). -/
def callToolResultJson (r : CallToolResult) : Json :=
  .obj [("content", .arr (r.content.map toolContentJson))]

/- ----------------------------------------------------------------
Protocol router and session state machine, from `src/mcp/server.rs`.
---------------------------------------------------------------- -/

/-- List-level string-prefix test, auxiliary for `strStartsWith`. -/
def charsStartWith : List Char → List Char → Bool
  | [], _ => true
  | _ :: _, [] => false
  | p :: ps, c :: cs => p == c && charsStartWith ps cs

/-- Rust `str::starts_with`, modelled on the character lists (Lean's
built-in `String.startsWith` does not reduce in the kernel). -/
def strStartsWith (s pre : String) : Bool :=
  charsStartWith pre.data s.data

/-- Version negotiation inside `handle_initialize_rpc` (server.rs lines
152-165): a parsed request version starting with "2025" selects the
newer version, any other parsed version the older one; absent or
undeserializable params select the newer version. -/
def negotiate_protocol_version (params : Option Json) : String :=
  match params with
  | some p =>
    match parseInitializeRequest p with
    | some init_req =>
      if strStartsWith init_req.protocol_version "2025" then PROTOCOL_VERSION_2025
      else PROTOCOL_VERSION
    | none => PROTOCOL_VERSION_2025
  | none => PROTOCOL_VERSION_2025

/-- The serialized `InitializeResult` (server.rs lines 168-178 with the
rename attributes of types.rs lines 63-85): empty tool capabilities and
the fixed server info. -/
def initializeResultJson (protocolVersion : String) : Json :=
  .obj [("protocolVersion", .str protocolVersion),
        ("capabilities", .obj [("tools", .obj []), ("experimental", .obj [])]),
        ("serverInfo", .obj [("name", .str "mcp-atlassian"), ("version", .str "0.1.0")])]

/-- Source handler for the initialize method (server.rs lines 148-184),
renamed from its source name to satisfy local naming rules; `serde_json::to_value`
on `InitializeResult` cannot fail and is modelled total. -/
def handle_initialize_rpc (req : JsonRpcRequest) : JsonRpcResponse :=
  JsonRpcResponse.mkSuccess req.id (initializeResultJson (negotiate_protocol_version req.params))

/-- Source `handle_initialized` (server.rs lines 186-199): sets the flag; a
true notification (no id) gets no response, an id-carrying request gets
an empty success. -/
def handle_initialized (_initialized : Bool) (req : JsonRpcRequest) :
    Bool × Option JsonRpcResponse :=
  (true,
    match req.id with
    | none => none
    | some i => some (JsonRpcResponse.mkSuccess (some i) Json.null))

/-- Source `handle_list_tools` (server.rs lines 201-220): rejected with an
internal error while uninitialized, otherwise the registry listing
wrapped as `ListToolsResult`. -/
def handle_list_tools (h : RequestHandler) (initialized : Bool) (req : JsonRpcRequest) :
    JsonRpcResponse :=
  if !initialized then
    JsonRpcResponse.mkError req.id (JsonRpcError.internal_error "Server not initialized")
  else
    JsonRpcResponse.mkSuccess req.id (.obj [("tools", h.toolsListing)])

/-- Placeholder for the message of the `serde_json` error raised by
`serde_json::from_value::<CallToolRequest>(p)?` (server.rs line 236):
the text is generated by serde and input-dependent; only the envelope it
ends up in (internal error, null id, propagated via `?`) matters to any
claim. -/
def SERDE_DESER_ERROR : String := "invalid params for CallToolRequest"

/-- Source `handle_call_tool` (server.rs lines 222-265): initialization gate,
missing-params check, parameter deserialization whose failure escapes
through `?`, then dispatch; handler errors are caught locally.
`serde_json::to_value` on `CallToolResult` cannot fail. -/
def handle_call_tool (h : RequestHandler) (config : Config) (initialized : Bool)
    (req : JsonRpcRequest) : Except String JsonRpcResponse :=
  if !initialized then
    .ok (JsonRpcResponse.mkError req.id (JsonRpcError.internal_error "Server not initialized"))
  else
    match req.params with
    | none => .ok (JsonRpcResponse.mkError req.id (JsonRpcError.invalid_params "Missing params"))
    | some p =>
      match parseCallToolRequest p with
      | none => .error SERDE_DESER_ERROR
      | some params =>
        match h.call_tool params.name params.arguments config with
        | .ok result => .ok (JsonRpcResponse.mkSuccess req.id (callToolResultJson result))
        | .error e => .ok (JsonRpcResponse.mkError req.id (JsonRpcError.internal_error e))

/-- Source `handle_list_prompts` (server.rs lines 267-276): the empty prompt
list; the initialized flag is not consulted. -/
def handle_list_prompts (req : JsonRpcRequest) : JsonRpcResponse :=
  JsonRpcResponse.mkSuccess req.id (.obj [("prompts", .arr [])])

/-- Source `handle_list_resources` (server.rs lines 278-287): the empty
resource list; the initialized flag is not consulted. -/
def handle_list_resources (req : JsonRpcRequest) : JsonRpcResponse :=
  JsonRpcResponse.mkSuccess req.id (.obj [("resources", .arr [])])

/-- Source `process_request` (server.rs lines 109-146) after the JSON parse
stage: version check, then routing by method name.  The pair carries the
session flag (only the `initialized` notification writes it). -/
def process_request (h : RequestHandler) (config : Config) (initialized : Bool)
    (req : JsonRpcRequest) : Bool × Except String (Option JsonRpcResponse) :=
  if req.jsonrpc != "2.0" then
    (initialized, .ok (some (JsonRpcResponse.mkError req.id JsonRpcError.invalid_request)))
  else if req.method == "initialize" then
    (initialized, .ok (some (handle_initialize_rpc req)))
  else if req.method == "initialized" || req.method == "notifications/initialized" then
    let sr := handle_initialized initialized req
    (sr.1, .ok sr.2)
  else if req.method == "tools/list" then
    (initialized, .ok (some (handle_list_tools h initialized req)))
  else if req.method == "tools/call" then
    (initialized, (handle_call_tool h config initialized req).map some)
  else if req.method == "prompts/list" then
    (initialized, .ok (some (handle_list_prompts req)))
  else if req.method == "resources/list" then
    (initialized, .ok (some (handle_list_resources req)))
  else
    (initialized,
      .ok (some (JsonRpcResponse.mkError req.id (JsonRpcError.method_not_found req.method))))

/-- One transport-loop iteration for a non-empty line (`run`, server.rs
lines 70-96, plus the parse stage of `process_request`, lines 111-120).
The line is given as its parse outcome (`none` for a malformed line,
answered with the parse-error envelope); an error escaping
`process_request` is converted by the loop into an internal-error
envelope with a null id. -/
def processLine (h : RequestHandler) (config : Config) (initialized : Bool)
    (parsed : Option JsonRpcRequest) : Bool × Option JsonRpcResponse :=
  match parsed with
  | none => (initialized, some (JsonRpcResponse.mkError none JsonRpcError.parse_error))
  | some req =>
    match process_request h config initialized req with
    | (st, .ok r) => (st, r)
    | (st, .error e) => (st, some (JsonRpcResponse.mkError none (JsonRpcError.internal_error e)))

/-- The one routing path whose error escapes to the transport loop: a
version-valid `tools/call` on an initialized session whose params are
present but fail `CallToolRequest` deserialization. -/
def deserFailurePath (initialized : Bool) (req : JsonRpcRequest) : Bool :=
  req.jsonrpc == "2.0" && initialized && req.method == "tools/call" &&
    (match req.params with
     | some p => (parseCallToolRequest p).isNone
     | none => false)

/- ----------------------------------------------------------------
Claims about the router and dispatcher.
---------------------------------------------------------------- -/

/-- Counterexample to C1 as stated: a `prompts/list` request processed
while uninitialized is answered with a success envelope (the empty
prompt list, no error member), not with an internal-error envelope —
`handle_list_prompts` and `handle_list_resources` never consult the
initialized flag. -/
theorem uninitialized_prompts_list_cex :
    (process_request ⟨[], ⟨[], true⟩, Json.arr []⟩ ⟨none, [], none⟩ false
        ⟨"2.0", "prompts/list", none, some (Json.num 1)⟩).2 =
      .ok (some (JsonRpcResponse.mkSuccess (some (Json.num 1))
        (Json.obj [("prompts", Json.arr [])]))) ∧
    (JsonRpcResponse.mkSuccess (some (Json.num 1))
        (Json.obj [("prompts", Json.arr [])])).error = none :=
  ⟨rfl, rfl⟩

/-- C1 amended: while the session is uninitialized, `tools/list` and
`tools/call` are answered with the internal-error envelope "Server not
initialized" with no further work (the outcome is the same for every
registry, handler set and configuration); `prompts/list` and
`resources/list` do not consult the flag and answer with empty lists
regardless of initialization. -/
theorem uninitialized_gating (h : RequestHandler) (config : Config) (req : JsonRpcRequest)
    (hv : req.jsonrpc = "2.0") :
    (req.method = "tools/list" →
        process_request h config false req =
          (false, .ok (some (JsonRpcResponse.mkError req.id
            (JsonRpcError.internal_error "Server not initialized"))))) ∧
    (req.method = "tools/call" →
        process_request h config false req =
          (false, .ok (some (JsonRpcResponse.mkError req.id
            (JsonRpcError.internal_error "Server not initialized"))))) ∧
    (req.method = "prompts/list" →
        process_request h config false req =
          (false, .ok (some (JsonRpcResponse.mkSuccess req.id
            (Json.obj [("prompts", Json.arr [])]))))) ∧
    (req.method = "resources/list" →
        process_request h config false req =
          (false, .ok (some (JsonRpcResponse.mkSuccess req.id
            (Json.obj [("resources", Json.arr [])]))))) := by
  refine ⟨?_, ?_, ?_, ?_⟩ <;> intro hm <;>
    simp [process_request, hv, hm, handle_list_tools, handle_call_tool,
      handle_list_prompts, handle_list_resources, Except.map]

/-- Witness for `uninitialized_gating` at concrete uninitialized
requests. -/
theorem uninitialized_gating_witness :
    process_request ⟨[], ⟨[], true⟩, Json.arr []⟩ ⟨none, [], none⟩ false
        ⟨"2.0", "tools/list", none, some (Json.num 7)⟩ =
      (false, .ok (some (JsonRpcResponse.mkError (some (Json.num 7))
        (JsonRpcError.internal_error "Server not initialized")))) ∧
    process_request ⟨[], ⟨[], true⟩, Json.arr []⟩ ⟨none, [], none⟩ false
        ⟨"2.0", "tools/call", none, some (Json.num 8)⟩ =
      (false, .ok (some (JsonRpcResponse.mkError (some (Json.num 8))
        (JsonRpcError.internal_error "Server not initialized")))) :=
  ⟨(uninitialized_gating ⟨[], ⟨[], true⟩, Json.arr []⟩ ⟨none, [], none⟩
      ⟨"2.0", "tools/list", none, some (Json.num 7)⟩ rfl).1 rfl,
   (uninitialized_gating ⟨[], ⟨[], true⟩, Json.arr []⟩ ⟨none, [], none⟩
      ⟨"2.0", "tools/call", none, some (Json.num 8)⟩ rfl).2.1 rfl⟩

/-- C7: calling a tool name absent from the registry fails with an error
message naming the tool, before any handler could run: the result is the
same constant error for every registry missing the name, every argument
value and every configuration, so no Backend Operation is reached. -/
theorem call_tool_not_found (h : RequestHandler) (name : String) (arguments : Json)
    (config : Config) (hn : lookupTool h.tools name = none) :
    h.call_tool name arguments config = .error ("Tool not found: " ++ name) := by
  simp [RequestHandler.call_tool, hn]

/-- Witness for `call_tool_not_found` on the empty registry. -/
theorem call_tool_not_found_witness :
    RequestHandler.call_tool ⟨[], ⟨[], true⟩, Json.arr []⟩ "missing_tool"
        (Json.obj []) ⟨none, [], none⟩ =
      .error ("Tool not found: " ++ "missing_tool") :=
  call_tool_not_found ⟨[], ⟨[], true⟩, Json.arr []⟩ "missing_tool" (Json.obj [])
    ⟨none, [], none⟩ rfl

/-- The protocol version a response's result object reports. -/
def responseProtocolVersion (r : JsonRpcResponse) : Option Json :=
  match r.result with
  | some (.obj kvs) => lookupField kvs "protocolVersion"
  | _ => none

/-- C8: `initialize` version negotiation.  A request whose params
deserialize to an `InitializeRequest` is echoed the newer supported
version when its protocol version starts with "2025" and the older one
otherwise; when no params are supplied, and also when the supplied
params do not deserialize, the newer version is the default. -/
theorem initialize_version_negotiation (req : JsonRpcRequest) :
    (∀ p init_req, req.params = some p → parseInitializeRequest p = some init_req →
        responseProtocolVersion (handle_initialize_rpc req) =
          some (.str (if strStartsWith init_req.protocol_version "2025"
                      then PROTOCOL_VERSION_2025 else PROTOCOL_VERSION))) ∧
    (req.params = none →
        responseProtocolVersion (handle_initialize_rpc req) =
          some (.str PROTOCOL_VERSION_2025)) ∧
    (∀ p, req.params = some p → parseInitializeRequest p = none →
        responseProtocolVersion (handle_initialize_rpc req) =
          some (.str PROTOCOL_VERSION_2025)) := by
  refine ⟨?_, ?_, ?_⟩
  · intro p init_req hp hparse
    simp [handle_initialize_rpc, negotiate_protocol_version, responseProtocolVersion,
      initializeResultJson, JsonRpcResponse.mkSuccess, lookupField, hp, hparse]
  · intro hp
    simp [handle_initialize_rpc, negotiate_protocol_version, responseProtocolVersion,
      initializeResultJson, JsonRpcResponse.mkSuccess, lookupField, hp]
  · intro p hp hparse
    simp [handle_initialize_rpc, negotiate_protocol_version, responseProtocolVersion,
      initializeResultJson, JsonRpcResponse.mkSuccess, lookupField, hp, hparse]

/-- Witness for `initialize_version_negotiation`: no params gives the
newer default, a parsed "2024-11-05" request is echoed the older
version, a parsed "2025-06-18" request the newer one. -/
theorem initialize_version_negotiation_witness :
    responseProtocolVersion (handle_initialize_rpc ⟨"2.0", "initialize", none, some (Json.num 1)⟩) =
      some (Json.str PROTOCOL_VERSION_2025) ∧
    responseProtocolVersion (handle_initialize_rpc ⟨"2.0", "initialize",
        some (Json.obj [("protocolVersion", Json.str "2024-11-05"),
                        ("capabilities", Json.obj []),
                        ("clientInfo", Json.obj [("name", Json.str "c"),
                                                 ("version", Json.str "1")])]),
        some (Json.num 2)⟩) = some (Json.str PROTOCOL_VERSION) ∧
    responseProtocolVersion (handle_initialize_rpc ⟨"2.0", "initialize",
        some (Json.obj [("protocolVersion", Json.str "2025-06-18"),
                        ("capabilities", Json.obj []),
                        ("clientInfo", Json.obj [("name", Json.str "c"),
                                                 ("version", Json.str "1")])]),
        some (Json.num 3)⟩) = some (Json.str PROTOCOL_VERSION_2025) := by
  refine ⟨(initialize_version_negotiation _).2.1 rfl, ?_, ?_⟩
  · exact (initialize_version_negotiation _).1 _ ⟨"2024-11-05"⟩ rfl rfl
  · exact (initialize_version_negotiation _).1 _ ⟨"2025-06-18"⟩ rfl rfl

/-- C10: `ResponseOptimizer::optimize` returns `Ok` on every input, so
the dispatcher's recovery arm for optimization failure is unreachable:
for a read-class tool whose handler succeeds, the delivered content is
always built from the optimized value. -/
theorem optimize_never_fails (h : RequestHandler) (name : String) (arguments : Json)
    (config : Config) (tool : ToolHandler) (result : Json)
    (hfind : lookupTool h.tools name = some tool)
    (hexec : tool.execute arguments config = .ok result)
    (hget : is_get_operation name = true) :
    (ResponseOptimizer.optimize h.optimizer result).2 = Except.ok () ∧
    dispatchOptimize h.optimizer result = h.optimizer.optimize_recursive result ∧
    h.call_tool name arguments config =
      .ok ⟨toContent (h.optimizer.optimize_recursive result)⟩ := by
  refine ⟨rfl, rfl, ?_⟩
  simp [RequestHandler.call_tool, hfind, hexec, hget, dispatchOptimize,
    ResponseOptimizer.optimize]

/-- Witness for `optimize_never_fails`: a one-tool registry whose
read-class handler returns an object with an excluded key. -/
theorem optimize_never_fails_witness :
    (ResponseOptimizer.optimize ⟨["self"], true⟩
      (Json.obj [("self", Json.str "u"), ("a", Json.num 1)])).2 = Except.ok () ∧
    dispatchOptimize ⟨["self"], true⟩ (Json.obj [("self", Json.str "u"), ("a", Json.num 1)]) =
      ResponseOptimizer.optimize_recursive ⟨["self"], true⟩
        (Json.obj [("self", Json.str "u"), ("a", Json.num 1)]) ∧
    RequestHandler.call_tool
        ⟨[("jira_search", ⟨fun _ _ => .ok (Json.obj [("self", Json.str "u"), ("a", Json.num 1)])⟩)],
         ⟨["self"], true⟩, Json.arr []⟩
        "jira_search" (Json.obj []) ⟨none, [], none⟩ =
      .ok ⟨toContent (ResponseOptimizer.optimize_recursive ⟨["self"], true⟩
        (Json.obj [("self", Json.str "u"), ("a", Json.num 1)]))⟩ :=
  optimize_never_fails
    ⟨[("jira_search", ⟨fun _ _ => .ok (Json.obj [("self", Json.str "u"), ("a", Json.num 1)])⟩)],
     ⟨["self"], true⟩, Json.arr []⟩
    "jira_search" (Json.obj []) ⟨none, [], none⟩
    ⟨fun _ _ => .ok (Json.obj [("self", Json.str "u"), ("a", Json.num 1)])⟩
    (Json.obj [("self", Json.str "u"), ("a", Json.num 1)]) rfl rfl rfl

/-- Exactly one of `result` and `error` is present in a response. -/
def wellFormedResponse (r : JsonRpcResponse) : Prop :=
  (r.result.isSome = true ∧ r.error = none) ∨ (r.result = none ∧ r.error.isSome = true)

/-- Success envelopes carry a result and no error. -/
theorem mkSuccess_wellFormed (id : Option Json) (v : Json) :
    wellFormedResponse (JsonRpcResponse.mkSuccess id v) :=
  Or.inl ⟨rfl, rfl⟩

/-- Error envelopes carry an error and no result. -/
theorem mkError_wellFormed (id : Option Json) (e : JsonRpcError) :
    wellFormedResponse (JsonRpcResponse.mkError id e) :=
  Or.inr ⟨rfl, rfl⟩

/-- Every response of `handle_initialized` is an envelope from a smart
constructor. -/
theorem handle_initialized_wf (b : Bool) (req : JsonRpcRequest) (r : JsonRpcResponse)
    (hr : (handle_initialized b req).2 = some r) : wellFormedResponse r := by
  unfold handle_initialized at hr
  cases hid : req.id with
  | none => rw [hid] at hr; cases hr
  | some i =>
    rw [hid] at hr
    cases hr
    exact mkSuccess_wellFormed _ _

/-- Every response of `handle_list_tools` is an envelope from a smart
constructor. -/
theorem handle_list_tools_wf (h : RequestHandler) (b : Bool) (req : JsonRpcRequest) :
    wellFormedResponse (handle_list_tools h b req) := by
  unfold handle_list_tools
  split
  · exact mkError_wellFormed _ _
  · exact mkSuccess_wellFormed _ _

/-- Every `Ok` response of `handle_call_tool` is an envelope from a
smart constructor. -/
theorem handle_call_tool_wf (h : RequestHandler) (config : Config) (b : Bool)
    (req : JsonRpcRequest) (r : JsonRpcResponse)
    (hr : handle_call_tool h config b req = .ok r) : wellFormedResponse r := by
  unfold handle_call_tool at hr
  split at hr
  · cases hr; exact mkError_wellFormed _ _
  · split at hr
    · cases hr; exact mkError_wellFormed _ _
    · split at hr
      · cases hr
      · split at hr
        · cases hr; exact mkSuccess_wellFormed _ _
        · cases hr; exact mkError_wellFormed _ _

/-- Every `Ok some` response of `process_request` is an envelope from a
smart constructor. -/
theorem process_request_wf (h : RequestHandler) (config : Config) (b : Bool)
    (req : JsonRpcRequest) (r : JsonRpcResponse)
    (hr : (process_request h config b req).2 = Except.ok (some r)) :
    wellFormedResponse r := by
  unfold process_request at hr
  split at hr
  · cases hr; exact mkError_wellFormed _ _
  · split at hr
    · cases hr; exact mkSuccess_wellFormed _ _
    · split at hr
      · exact handle_initialized_wf b req r (by simpa using hr)
      · split at hr
        · cases hr; exact handle_list_tools_wf h b req
        · split at hr
          · simp only [] at hr
            cases hct : handle_call_tool h config b req with
            | ok rr =>
              rw [hct] at hr
              simp [Except.map] at hr
              exact hr ▸ handle_call_tool_wf h config b req rr hct
            | error e => rw [hct] at hr; simp [Except.map] at hr
          · split at hr
            · cases hr; exact mkSuccess_wellFormed _ _
            · split at hr
              · cases hr; exact mkSuccess_wellFormed _ _
              · cases hr; exact mkError_wellFormed _ _

/-- Every response `processLine` emits is an envelope with exactly one
of `result` and `error`. -/
theorem processLine_exclusive (h : RequestHandler) (config : Config) (initialized : Bool)
    (parsed : Option JsonRpcRequest) :
    ∀ r, (processLine h config initialized parsed).2 = some r → wellFormedResponse r := by
  intro r hr
  cases parsed with
  | none =>
    simp [processLine] at hr
    exact hr ▸ mkError_wellFormed _ _
  | some req =>
    simp only [processLine] at hr
    rcases hpair : process_request h config initialized req with ⟨st, res⟩
    rw [hpair] at hr
    cases res with
    | ok ropt =>
      simp at hr
      subst hr
      exact process_request_wf h config initialized req r (by rw [hpair])
    | error e =>
      simp at hr
      subst hr
      exact mkError_wellFormed _ _

/-- Every request carrying an id is answered by exactly one response;
the response repeats the request id except on the parameter-
deserialization failure path, where the transport loop stamps a null
id. -/
theorem processLine_id (h : RequestHandler) (config : Config) (initialized : Bool)
    (req : JsonRpcRequest) (i : Json) (hid : req.id = some i) :
    ∃ r, (processLine h config initialized (some req)).2 = some r ∧
      r.id = (if deserFailurePath initialized req = true then none else some i) := by
  by_cases hv : req.jsonrpc = "2.0"
  · by_cases hm1 : req.method = "initialize"
    · refine ⟨handle_initialize_rpc req, ?_, ?_⟩
      · simp [processLine, process_request, hv, hm1]
      · simp [handle_initialize_rpc, JsonRpcResponse.mkSuccess, hid, deserFailurePath, hm1]
    · by_cases hm2 : req.method = "initialized"
      · refine ⟨JsonRpcResponse.mkSuccess (some i) Json.null, ?_, ?_⟩
        · simp [processLine, process_request, hv, hm1, hm2, handle_initialized, hid]
        · simp [JsonRpcResponse.mkSuccess, deserFailurePath, hm2]
      · by_cases hm3 : req.method = "notifications/initialized"
        · refine ⟨JsonRpcResponse.mkSuccess (some i) Json.null, ?_, ?_⟩
          · simp [processLine, process_request, hv, hm1, hm2, hm3, handle_initialized, hid]
          · simp [JsonRpcResponse.mkSuccess, deserFailurePath, hm3]
        · by_cases hm4 : req.method = "tools/list"
          · refine ⟨handle_list_tools h initialized req, ?_, ?_⟩
            · simp [processLine, process_request, hv, hm4]
            · cases initialized <;>
                simp [handle_list_tools, JsonRpcResponse.mkError, JsonRpcResponse.mkSuccess,
                  hid, deserFailurePath, hm4]
          · by_cases hm5 : req.method = "tools/call"
            · cases hi : initialized with
              | false =>
                refine ⟨JsonRpcResponse.mkError (some i)
                  (JsonRpcError.internal_error "Server not initialized"), ?_, ?_⟩
                · simp [processLine, process_request, hv, hm5, handle_call_tool,
                    Except.map, hid]
                · simp [JsonRpcResponse.mkError, deserFailurePath]
              | true =>
                cases hp : req.params with
                | none =>
                  refine ⟨JsonRpcResponse.mkError (some i)
                    (JsonRpcError.invalid_params "Missing params"), ?_, ?_⟩
                  · simp [processLine, process_request, hv, hm5, handle_call_tool, hp,
                      Except.map, hid]
                  · simp [JsonRpcResponse.mkError, deserFailurePath, hp]
                | some p =>
                  cases hparse : parseCallToolRequest p with
                  | none =>
                    refine ⟨JsonRpcResponse.mkError none
                      (JsonRpcError.internal_error SERDE_DESER_ERROR), ?_, ?_⟩
                    · simp [processLine, process_request, hv, hm5, handle_call_tool, hp,
                        hparse, Except.map]
                    · simp [JsonRpcResponse.mkError, deserFailurePath, hv, hm5, hp, hparse]
                  | some params =>
                    cases hres : h.call_tool params.name params.arguments config with
                    | ok result =>
                      refine ⟨JsonRpcResponse.mkSuccess (some i) (callToolResultJson result),
                        ?_, ?_⟩
                      · simp [processLine, process_request, hv, hm5, handle_call_tool, hp,
                          hparse, hres, Except.map, hid]
                      · simp [JsonRpcResponse.mkSuccess, deserFailurePath, hp, hparse]
                    | error e =>
                      refine ⟨JsonRpcResponse.mkError (some i)
                        (JsonRpcError.internal_error e), ?_, ?_⟩
                      · simp [processLine, process_request, hv, hm5, handle_call_tool, hp,
                          hparse, hres, Except.map, hid]
                      · simp [JsonRpcResponse.mkError, deserFailurePath, hp, hparse]
            · by_cases hm6 : req.method = "prompts/list"
              · refine ⟨handle_list_prompts req, ?_, ?_⟩
                · simp [processLine, process_request, hv, hm6]
                · simp [handle_list_prompts, JsonRpcResponse.mkSuccess, hid,
                    deserFailurePath, hm6]
              · by_cases hm7 : req.method = "resources/list"
                · refine ⟨handle_list_resources req, ?_, ?_⟩
                  · simp [processLine, process_request, hv, hm7]
                  · simp [handle_list_resources, JsonRpcResponse.mkSuccess, hid,
                      deserFailurePath, hm7]
                · refine ⟨JsonRpcResponse.mkError (some i)
                    (JsonRpcError.method_not_found req.method), ?_, ?_⟩
                  · simp [processLine, process_request, hv, hm1, hm2, hm3, hm4, hm5,
                      hm6, hm7, hid]
                  · simp [JsonRpcResponse.mkError, deserFailurePath, hm5]
  · refine ⟨JsonRpcResponse.mkError (some i) JsonRpcError.invalid_request, ?_, ?_⟩
    · simp [processLine, process_request, hv, hid]
    · simp [JsonRpcResponse.mkError, deserFailurePath, hv]

/-- A version-valid `initialized` (or aliased) notification without an
id produces no response. -/
theorem processLine_notification (h : RequestHandler) (config : Config)
    (initialized : Bool) (req : JsonRpcRequest) (hid : req.id = none)
    (hv : req.jsonrpc = "2.0")
    (hm : req.method = "initialized" ∨ req.method = "notifications/initialized") :
    (processLine h config initialized (some req)).2 = none := by
  rcases hm with hm | hm <;>
    simp [processLine, process_request, hv, hm, handle_initialized, hid]

/-- Counterexample to C2 as stated: an initialized-session `tools/call`
request carrying id 1 whose params are present but malformed gets
exactly one response, but that response carries a null id, not the
request's id — the deserialization error propagates to the transport
loop, which stamps a null id on its error envelope. -/
theorem response_id_mismatch_cex :
    (processLine ⟨[], ⟨[], true⟩, Json.arr []⟩ ⟨none, [], none⟩ true
        (some ⟨"2.0", "tools/call", some (Json.obj []), some (Json.num 1)⟩)).2 =
      some (JsonRpcResponse.mkError none (JsonRpcError.internal_error SERDE_DESER_ERROR)) ∧
    (JsonRpcResponse.mkError none
      (JsonRpcError.internal_error SERDE_DESER_ERROR)).id ≠ some (Json.num 1) :=
  ⟨rfl, by simp [JsonRpcResponse.mkError]⟩

/-- C2 amended: every parsed request carrying a non-null id receives
exactly one response; that response repeats the request id except on the
one error-propagation path (an initialized, version-valid `tools/call`
whose params are present but fail deserialization), where the single
response is the transport loop's internal-error envelope with null id.
A version-valid `initialized` notification (either spelling) without an
id receives no response.  In every emitted response exactly one of
`result` and `error` is present. -/
theorem jsonrpc_response_invariants (h : RequestHandler) (config : Config)
    (initialized : Bool) (req : JsonRpcRequest) :
    (∀ i, req.id = some i →
        ∃ r, (processLine h config initialized (some req)).2 = some r ∧
          r.id = (if deserFailurePath initialized req = true then none else some i)) ∧
    (req.id = none → req.jsonrpc = "2.0" →
        (req.method = "initialized" ∨ req.method = "notifications/initialized") →
        (processLine h config initialized (some req)).2 = none) ∧
    (∀ r, (processLine h config initialized (some req)).2 = some r →
        wellFormedResponse r) :=
  ⟨fun i hid => processLine_id h config initialized req i hid,
   fun hid hv hm => processLine_notification h config initialized req hid hv hm,
   processLine_exclusive h config initialized (some req)⟩

/-- Witness for `jsonrpc_response_invariants` at concrete requests: an
id-carrying `tools/list` is answered under its own id, and an
`initialized` notification is not answered. -/
theorem jsonrpc_response_invariants_witness :
    (∃ r, (processLine ⟨[], ⟨[], true⟩, Json.arr []⟩ ⟨none, [], none⟩ true
        (some ⟨"2.0", "tools/list", none, some (Json.num 5)⟩)).2 = some r ∧
      r.id = (if deserFailurePath true ⟨"2.0", "tools/list", none, some (Json.num 5)⟩ = true
              then none else some (Json.num 5))) ∧
    (processLine ⟨[], ⟨[], true⟩, Json.arr []⟩ ⟨none, [], none⟩ false
        (some ⟨"2.0", "initialized", none, none⟩)).2 = none :=
  ⟨(jsonrpc_response_invariants ⟨[], ⟨[], true⟩, Json.arr []⟩ ⟨none, [], none⟩ true
      ⟨"2.0", "tools/list", none, some (Json.num 5)⟩).1 (Json.num 5) rfl,
   (jsonrpc_response_invariants ⟨[], ⟨[], true⟩, Json.arr []⟩ ⟨none, [], none⟩ false
      ⟨"2.0", "initialized", none, none⟩).2.1 rfl rfl (Or.inl rfl)⟩

/-- Counterexample to C9 as stated: after initialization, a `tools/call`
whose params are present but lack the required shape is not answered
with an invalid-params (-32602) envelope; the deserialization error
escapes to the transport loop, which answers with an internal-error
(-32603) envelope. -/
theorem call_tool_malformed_params_cex :
    ((processLine ⟨[], ⟨[], true⟩, Json.arr []⟩ ⟨none, [], none⟩ true
        (some ⟨"2.0", "tools/call", some (Json.obj []), some (Json.num 1)⟩)).2.map
      (fun r => r.error.map (fun e => e.code))) =
      some (some error_codes.INTERNAL_ERROR) ∧
    error_codes.INTERNAL_ERROR ≠ error_codes.INVALID_PARAMS :=
  ⟨rfl, by decide⟩

/-- C9 amended: for `tools/call` after initialization, missing params
give the invalid-params (-32602) envelope under the request id; params
that fail `CallToolRequest` deserialization escape as an error that the
transport loop converts into an internal-error (-32603) envelope with a
null id; uninitialized access, tool-not-found and handler failure are
internal-error (-32603) envelopes under the request id. -/
theorem call_tool_error_taxonomy (h : RequestHandler) (config : Config)
    (req : JsonRpcRequest) :
    (req.params = none →
        handle_call_tool h config true req =
          .ok (JsonRpcResponse.mkError req.id (JsonRpcError.invalid_params "Missing params"))) ∧
    (∀ p, req.params = some p → parseCallToolRequest p = none →
        req.jsonrpc = "2.0" → req.method = "tools/call" →
        (processLine h config true (some req)).2 =
          some (JsonRpcResponse.mkError none (JsonRpcError.internal_error SERDE_DESER_ERROR))) ∧
    (handle_call_tool h config false req =
        .ok (JsonRpcResponse.mkError req.id
          (JsonRpcError.internal_error "Server not initialized"))) ∧
    (∀ p params, req.params = some p → parseCallToolRequest p = some params →
        lookupTool h.tools params.name = none →
        handle_call_tool h config true req =
          .ok (JsonRpcResponse.mkError req.id
            (JsonRpcError.internal_error ("Tool not found: " ++ params.name)))) ∧
    (∀ p params tool e, req.params = some p → parseCallToolRequest p = some params →
        lookupTool h.tools params.name = some tool →
        tool.execute params.arguments config = .error e →
        handle_call_tool h config true req =
          .ok (JsonRpcResponse.mkError req.id (JsonRpcError.internal_error e))) ∧
    (JsonRpcError.invalid_params "Missing params").code = error_codes.INVALID_PARAMS ∧
    (JsonRpcError.internal_error SERDE_DESER_ERROR).code = error_codes.INTERNAL_ERROR := by
  refine ⟨?_, ?_, ?_, ?_, ?_, rfl, rfl⟩
  · intro hp
    simp [handle_call_tool, hp]
  · intro p hp hparse hv hm
    simp [processLine, process_request, hv, hm, handle_call_tool, hp, hparse, Except.map]
  · simp [handle_call_tool]
  · intro p params hp hparse hlook
    simp [handle_call_tool, hp, hparse, RequestHandler.call_tool, hlook]
  · intro p params tool e hp hparse hlook hexec
    simp [handle_call_tool, hp, hparse, RequestHandler.call_tool, hlook, hexec]

/-- Witness for `call_tool_error_taxonomy` at concrete requests. -/
theorem call_tool_error_taxonomy_witness :
    handle_call_tool ⟨[], ⟨[], true⟩, Json.arr []⟩ ⟨none, [], none⟩ true
        ⟨"2.0", "tools/call", none, some (Json.num 2)⟩ =
      .ok (JsonRpcResponse.mkError (some (Json.num 2))
        (JsonRpcError.invalid_params "Missing params")) ∧
    handle_call_tool ⟨[], ⟨[], true⟩, Json.arr []⟩ ⟨none, [], none⟩ true
        ⟨"2.0", "tools/call",
         some (Json.obj [("name", Json.str "missing_tool"), ("arguments", Json.obj [])]),
         some (Json.num 3)⟩ =
      .ok (JsonRpcResponse.mkError (some (Json.num 3))
        (JsonRpcError.internal_error ("Tool not found: " ++ "missing_tool"))) :=
  ⟨(call_tool_error_taxonomy ⟨[], ⟨[], true⟩, Json.arr []⟩ ⟨none, [], none⟩
      ⟨"2.0", "tools/call", none, some (Json.num 2)⟩).1 rfl,
   (call_tool_error_taxonomy ⟨[], ⟨[], true⟩, Json.arr []⟩ ⟨none, [], none⟩
      ⟨"2.0", "tools/call",
       some (Json.obj [("name", Json.str "missing_tool"), ("arguments", Json.obj [])]),
       some (Json.num 3)⟩).2.2.2.1
     (Json.obj [("name", Json.str "missing_tool"), ("arguments", Json.obj [])])
     ⟨"missing_tool", Json.obj []⟩ rfl rfl rfl⟩
